import Mathlib

/-!
Verification development for the Immo-Tracker AI repository (src/app.py).

The file shallowly embeds the backend functions of the Streamlit app:
`process_images`, `fetch_url_content`, `analyze_with_gemini` (prompt
construction and JSON response cleanup), `generate_draft_message`,
`send_to_webhook`, and the Analyser button handler that merges extraction
output into the in-memory session record.

Modelling conventions:
- Python strings are modelled as Lean `String` / `List Char`.
- Python dicts (the session record `form_data` and parsed JSON objects)
  are association lists with first-occurrence key positions and
  last-write-wins assignment, matching CPython dict semantics.
- External effects (HTTP fetch, model invocation, webhook POST) are
  modelled by outcome parameters; an exception raised by the external
  call is an explicit outcome constructor.
- `json.loads` is modelled by an executable fuel-based JSON parser
  (`json_loads`); exponent number notation and the strict rejection of
  raw control characters inside strings are not modelled, as no claim
  depends on them. Parse failure is `none`, mirroring a raised
  `JSONDecodeError`.
-/

/-- A JSON value as produced by `json.loads`. Numbers are represented
exactly as `m / 10 ^ fracLen` (mantissa and number of fraction digits). -/
inductive JVal where
  | null
  | bool (b : Bool)
  | num (m : Int) (fracLen : Nat)
  | str (s : String)
  | arr (xs : List JVal)
  | obj (fields : List (String × JVal))

/-- A Python dict with string keys, as an association list in insertion
order (no duplicate keys in well-formed values). -/
abbrev PyDict := List (String × JVal)

/-- Python `d[k]` lookup (as an `Option`): first entry with the key. -/
def dictGet (d : PyDict) (k : String) : Option JVal :=
  match d with
  | [] => none
  | (k2, v) :: rest => if k2 = k then some v else dictGet rest k

/-- Python `d[k] = v`: overwrite in place if the key exists (keeping its
position), else append. -/
def dictSet (d : PyDict) (k : String) (v : JVal) : PyDict :=
  match d with
  | [] => [(k, v)]
  | (k2, v2) :: rest => if k2 = k then (k2, v) :: rest else (k2, v2) :: dictSet rest k v

/-- Python `d.update(src)`: assign every key/value pair of `src` into `d`
in order. -/
def dictUpdate (d : PyDict) (src : PyDict) : PyDict :=
  src.foldl (fun acc kv => dictSet acc kv.1 kv.2) d

/-- Build a Python dict from a pair list (models dict construction during
JSON object parsing: later duplicates win). -/
def dedupPairs (ps : List (String × JVal)) : PyDict :=
  ps.foldl (fun acc kv => dictSet acc kv.1 kv.2) []

/-- Python truthiness of a JSON-derived value (`if data:`). -/
def pyTruthy : JVal → Bool
  | JVal.null => false
  | JVal.bool b => b
  | JVal.num m _ => m != 0
  | JVal.str s => s != ""
  | JVal.arr xs => !xs.isEmpty
  | JVal.obj fs => !fs.isEmpty

/-! ### Python string helpers -/

/-- Whitespace stripped by Python `str.strip()` (ASCII part). -/
def isPyWs (c : Char) : Bool :=
  c == ' ' || c == '\t' || c == '\n' || c == '\r' || c == '\x0b' || c == '\x0c'

/-- Python `s.strip()`. -/
def pyStrip (s : List Char) : List Char :=
  ((s.dropWhile isPyWs).reverse.dropWhile isPyWs).reverse

/-- Does `s` start with `pat`? -/
def startsWithList : List Char → List Char → Bool
  | [], _ => true
  | _ :: _, [] => false
  | p :: ps, c :: cs => p == c && startsWithList ps cs

/-- Fuel-driven worker for `pyDeleteOcc`; the fuel is the input length, and
one unit is spent per step while at least one character is consumed, so the
fuel never runs out on the initial call. -/
def pyDeleteOccF (pat : List Char) : Nat → List Char → List Char
  | _, [] => []
  | 0, s => s
  | fuel + 1, c :: rest =>
    if startsWithList pat (c :: rest) && !pat.isEmpty then
      pyDeleteOccF pat fuel (List.drop (pat.length - 1) rest)
    else
      c :: pyDeleteOccF pat fuel rest

/-- Python `s.replace(pat, "")` for a non-empty `pat`: delete the
non-overlapping occurrences of `pat`, scanning left to right. -/
def pyDeleteOcc (pat : List Char) (s : List Char) : List Char :=
  pyDeleteOccF pat s.length s

/-- Python `s.find(c)`: index of the first occurrence (`none` models -1). -/
def pyFindChar : List Char → Char → Option Nat
  | [], _ => none
  | x :: rest, c => if x = c then some 0 else (pyFindChar rest c).map (· + 1)

/-- Python `s.rfind(c)`: index of the last occurrence (`none` models -1). -/
def pyRfindChar : List Char → Char → Option Nat
  | [], _ => none
  | x :: rest, c =>
    match pyRfindChar rest c with
    | some i => some (i + 1)
    | none => if x = c then some 0 else none

/-! ### A small executable JSON parser, modelling `json.loads` -/

/-- JSON whitespace. -/
def skipWs : List Char → List Char
  | [] => []
  | c :: rest =>
    if c == ' ' || c == '\t' || c == '\n' || c == '\r' then skipWs rest
    else c :: rest

def hexDigitVal (c : Char) : Option Nat :=
  if '0' ≤ c ∧ c ≤ '9' then some (c.toNat - 48)
  else if 'a' ≤ c ∧ c ≤ 'f' then some (c.toNat - 87)
  else if 'A' ≤ c ∧ c ≤ 'F' then some (c.toNat - 55)
  else none

/-- Single-character JSON escapes. -/
def decodeEsc (e : Char) : Option Char :=
  if e = '"' then some '"'
  else if e = '\\' then some '\\'
  else if e = '/' then some '/'
  else if e = 'n' then some '\n'
  else if e = 't' then some '\t'
  else if e = 'r' then some '\r'
  else if e = 'b' then some (Char.ofNat 8)
  else if e = 'f' then some (Char.ofNat 12)
  else none

/-- Parse the body of a JSON string (the opening quote already consumed):
returns the decoded characters and the rest of the input. -/
def parseJStr : List Char → Option (List Char × List Char)
  | [] => none
  | c :: rest =>
    if c = '"' then some ([], rest)
    else if c = '\\' then
      match rest with
      | 'u' :: h1 :: h2 :: h3 :: h4 :: rest4 =>
        match hexDigitVal h1, hexDigitVal h2, hexDigitVal h3, hexDigitVal h4 with
        | some a, some b, some c2, some d =>
          (parseJStr rest4).map
            (fun p => (Char.ofNat (((a * 16 + b) * 16 + c2) * 16 + d) :: p.1, p.2))
        | _, _, _, _ => none
      | e :: rest2 =>
        match decodeEsc e with
        | some ch => (parseJStr rest2).map (fun p => (ch :: p.1, p.2))
        | none => none
      | [] => none
    else (parseJStr rest).map (fun p => (c :: p.1, p.2))

/-- Numeric value of a digit list. -/
def digitsVal (ds : List Char) : Nat :=
  ds.foldl (fun a c => a * 10 + (c.toNat - 48)) 0

/-- Parse a JSON number (exponent notation not modelled). -/
def parseNum (s : List Char) : Option (JVal × List Char) :=
  let signSplit : Bool × List Char :=
    match s with
    | '-' :: rest => (true, rest)
    | _ => (false, s)
  let neg := signSplit.1
  let s1 := signSplit.2
  let intDs := s1.takeWhile Char.isDigit
  let s2 := s1.dropWhile Char.isDigit
  if intDs.isEmpty then none
  else
    match s2 with
    | '.' :: rest =>
      let fracDs := rest.takeWhile Char.isDigit
      if fracDs.isEmpty then none
      else
        let m : Int := Int.ofNat (digitsVal (intDs ++ fracDs))
        some (JVal.num (if neg then -m else m) fracDs.length, rest.dropWhile Char.isDigit)
    | _ =>
      let m : Int := Int.ofNat (digitsVal intDs)
      some (JVal.num (if neg then -m else m) 0, s2)

/-- Parser state: a plain value, or the body of an object or array with the
members parsed so far. -/
inductive ParseMode where
  | value
  | objBody (acc : List (String × JVal))
  | arrBody (acc : List JVal)

/-- Fuel-driven JSON parser core (structural recursion on the fuel; two
units of fuel always cover at least one consumed character). -/
def parseF : Nat → ParseMode → List Char → Option (JVal × List Char)
  | 0, _, _ => none
  | fuel + 1, ParseMode.value, s =>
    match skipWs s with
    | [] => none
    | c :: rest =>
      if c = '{' then
        match skipWs rest with
        | '}' :: rest2 => some (JVal.obj [], rest2)
        | _ => parseF fuel (ParseMode.objBody []) rest
      else if c = '[' then
        match skipWs rest with
        | ']' :: rest2 => some (JVal.arr [], rest2)
        | _ => parseF fuel (ParseMode.arrBody []) rest
      else if c = '"' then
        match parseJStr rest with
        | some (cs, rest2) => some (JVal.str (String.mk cs), rest2)
        | none => none
      else if c = 't' then
        match rest with
        | 'r' :: 'u' :: 'e' :: rest2 => some (JVal.bool true, rest2)
        | _ => none
      else if c = 'f' then
        match rest with
        | 'a' :: 'l' :: 's' :: 'e' :: rest2 => some (JVal.bool false, rest2)
        | _ => none
      else if c = 'n' then
        match rest with
        | 'u' :: 'l' :: 'l' :: rest2 => some (JVal.null, rest2)
        | _ => none
      else parseNum (c :: rest)
  | fuel + 1, ParseMode.objBody acc, s =>
    match skipWs s with
    | '"' :: rest =>
      match parseJStr rest with
      | none => none
      | some (key, rest2) =>
        match skipWs rest2 with
        | ':' :: rest3 =>
          match parseF fuel ParseMode.value rest3 with
          | none => none
          | some (v, rest4) =>
            match skipWs rest4 with
            | ',' :: rest5 => parseF fuel (ParseMode.objBody (acc ++ [(String.mk key, v)])) rest5
            | '}' :: rest5 => some (JVal.obj (dedupPairs (acc ++ [(String.mk key, v)])), rest5)
            | _ => none
        | _ => none
    | _ => none
  | fuel + 1, ParseMode.arrBody acc, s =>
    match parseF fuel ParseMode.value s with
    | none => none
    | some (v, rest) =>
      match skipWs rest with
      | ',' :: rest2 => parseF fuel (ParseMode.arrBody (acc ++ [v])) rest2
      | ']' :: rest2 => some (JVal.arr (acc ++ [v]), rest2)
      | _ => none

/-- Models Python `json.loads`: parse one JSON document, requiring the rest
of the input to be whitespace; `none` models a raised `JSONDecodeError`. -/
def json_loads (s : List Char) : Option JVal :=
  match parseF (2 * s.length + 2) ParseMode.value s with
  | some (v, rest) => if (skipWs rest).isEmpty then some v else none
  | none => none

/-! ### Image Normalizer (`process_images`, src/app.py lines 35-46) -/

/-- A decoded PIL image: its mode string and an abstract picture identity
(unchanged by mode conversion). -/
structure PILImage where
  mode : String
  picture : Nat
deriving DecidableEq

/-- `image.convert("RGB")` applied when the mode is not RGB, as in the loop
body of `process_images`. -/
def normalizeImage (image : PILImage) : PILImage :=
  if image.mode ≠ "RGB" then { image with mode := "RGB" } else image

/-- `process_images`: an uploaded file is modelled by its decode outcome
(`none` when `Image.open` raises). A failed decode is reported and
skipped; a successful one is normalized and appended. -/
def process_images : List (Option PILImage) → List PILImage
  | [] => []
  | none :: rest => process_images rest
  | some image :: rest => normalizeImage image :: process_images rest

/-! ### Content Fetcher (`fetch_url_content`, src/app.py lines 48-59) -/

/-- Outcome of the HTTP GET issued by `requests.get` (after redirect
resolution): the final status and body, or a transport error / timeout. -/
inductive FetchOutcome where
  | ok (status : Nat) (body : String)
  | netError

/-- Python `s[:n]`. -/
def pyTruncate (s : String) (n : Nat) : String :=
  String.mk (s.data.take n)

/-- `fetch_url_content`: `response.raise_for_status()` raises exactly for
the 4xx/5xx statuses; that exception and any transport error are caught
and turned into `None`. On success the body is capped at 30000 chars. -/
def fetch_url_content (outcome : FetchOutcome) (url : String) : Option String :=
  match outcome with
  | FetchOutcome.netError => none
  | FetchOutcome.ok status body =>
    if 400 ≤ status ∧ status < 600 then none
    else some (pyTruncate body 30000)

/-! ### Extraction Engine (`analyze_with_gemini`, src/app.py lines 61-93) -/

/-- Outcome of a generative-model invocation: the response text, or a
raised exception (network failure, quota error, blocked response). -/
inductive ModelOutcome where
  | ok (text : String)
  | raised

/-- The fixed instruction block of the extraction prompt (lines 67-73). -/
def instructionBlock : String :=
  "Agis comme un expert immobilier. Extrais les données au format JSON strict :\n        \x7b\n            \"date\": \"YYYY-MM-DD\", \"ville\": \"Ville\", \"quartier\": \"Quartier/Métro\",\n            \"prix\": Float, \"surface\": Float, \"type_vendeur\": \"Agence\"|\"Particulier\",\n            \"email\": \"email ou vide\", \"telephone\": \"tel ou vide\"\n        \x7d\n        Si inconnu, mets 0 ou chaine vide."

/-- Line 88: `response.text.replace("```json", "").replace("```", "").strip()`. -/
def cleanupResponse (text : String) : List Char :=
  pyStrip (pyDeleteOcc "```".data (pyDeleteOcc "```json".data text.data))

/-- Lines 89-90: the substring `json_str[start:end]` handed to `json.loads`,
where `start = json_str.find('{')` and `end = json_str.rfind('}') + 1`
(meaningful when a `'{'` exists; `rfind` returning -1 gives `end = 0`). -/
def jsonCandidate (text : String) : List Char :=
  let cs := cleanupResponse text
  match pyFindChar cs '{' with
  | none => []
  | some start =>
    let stop := match pyRfindChar cs '}' with
      | none => 0
      | some j => j + 1
    List.drop start (List.take stop cs)

/-- Lines 85-93: the value returned by `analyze_with_gemini`. A raised
model call, or a `json.loads` failure, is caught by the `except` block and
becomes `None`; a cleaned response without `'{'` yields the empty dict. -/
def analyze_result (resp : ModelOutcome) : Option JVal :=
  match resp with
  | ModelOutcome.raised => none
  | ModelOutcome.ok text =>
    match pyFindChar (cleanupResponse text) '{' with
    | none => some (JVal.obj [])
    | some _ => json_loads (jsonCandidate text)

/-- One element of the multi-part prompt list. -/
inductive PromptPart where
  | text (s : String)
  | image (img : PILImage)
deriving DecidableEq

/-- `analyze_with_gemini` (lines 61-93): builds the multi-part prompt
(instruction block; HTML or bare-URL context when a URL is given; raw-text
context when given; the images) and produces the parsed result. The pair
returned exposes the prompt sent to the model alongside the return value. -/
def analyze_with_gemini (fetch : FetchOutcome) (resp : ModelOutcome)
    (api_key raw_text url_input : String) (images : List PILImage) :
    List PromptPart × Option JVal :=
  let prompt := [PromptPart.text instructionBlock]
  let prompt :=
    if url_input ≠ "" then
      let html := fetch_url_content fetch url_input
      prompt ++ [PromptPart.text (match html with
        | some h => if h ≠ "" then "Source HTML : \n" ++ h else "Source URL : " ++ url_input
        | none => "Source URL : " ++ url_input)]
    else prompt
  let prompt :=
    if raw_text ≠ "" then prompt ++ [PromptPart.text ("Source Texte : \n" ++ raw_text)]
    else prompt
  let prompt := prompt ++ images.map PromptPart.image
  (prompt, analyze_result resp)

/-! ### Draft Message Generator (`generate_draft_message`, lines 95-115) -/

/-- `generate_draft_message`: the prompt is a fixed French template with
the neighborhood substituted once; the model reply text is returned
verbatim, and any exception from the call is caught and replaced by a
fixed error string. -/
def generate_draft_message (resp : ModelOutcome) (api_key quartier : String) : String :=
  match resp with
  | ModelOutcome.ok t => t
  | ModelOutcome.raised => "Erreur génération message."

/-! ### Webhook Submitter (`send_to_webhook`, lines 117-125) -/

/-- Outcome of the webhook POST: the response status, or a raised
transport exception. -/
inductive PostOutcome where
  | ok (status : Nat)
  | exc

/-- `send_to_webhook`: `resp.status_code in [200, 302]`; any exception is
caught and yields `False`. -/
def send_to_webhook (outcome : PostOutcome) (webhook_url : String) (data : PyDict) : Bool :=
  match outcome with
  | PostOutcome.ok status => status == 200 || status == 302
  | PostOutcome.exc => false

/-! ### Form/State Controller (lines 129-130 and 160-171) -/

/-- `ImmoData().model_dump()` (lines 16-31): the session record created at
session start, with `date` the current date. -/
def initialFormData (today : String) : PyDict :=
  [("date", JVal.str today), ("ville", JVal.str ""), ("quartier", JVal.str ""),
   ("prix", JVal.num 0 0), ("surface", JVal.num 0 0),
   ("type_vendeur", JVal.str "Agence"), ("email", JVal.str ""), ("telephone", JVal.str ""),
   ("url", JVal.str ""), ("status", JVal.str "A contacter"), ("commentaire", JVal.str ""),
   ("create_draft", JVal.bool false), ("message_draft", JVal.str "")]

/-- The Analyser button handler body after the extraction call (lines
166-171): `if data:` then `form_data.update(data)` and
`form_data['url'] = url_in`. Result `none` models the uncaught `TypeError`
of `dict.update` on a truthy non-mapping value (never produced by the
claims; `json.loads` results that are truthy non-objects). -/
def analyser_handler (result : Option JVal) (url_in : String) (form : PyDict) : Option PyDict :=
  match result with
  | none => some form
  | some data =>
    if pyTruthy data then
      match data with
      | JVal.obj fields => some (dictSet (dictUpdate form fields) "url" (JVal.str url_in))
      | _ => none
    else some form

/-- The extraction-owned field keys of the record (spec section 3), i.e.
the keys the extraction prompt asks the model to produce. -/
def extractionOwned : List String :=
  ["date", "ville", "quartier", "prix", "surface", "type_vendeur", "email", "telephone"]

/-- Modelled from the wording of the spec (section 4.3 step 6): the
substring of a text from the first `'{'` to the last `'}'`, inclusive;
empty when either brace is missing. Used to compare the implemented
cleanup against the specified one. -/
def specJsonSpan (cs : List Char) : List Char :=
  match pyFindChar cs '{', pyRfindChar cs '}' with
  | some i, some j => List.drop i (List.take (j + 1) cs)
  | _, _ => []

/-! ### Dictionary lemmas -/

theorem dictGet_dictSet_self (d : PyDict) (k : String) (v : JVal) :
    dictGet (dictSet d k v) k = some v := by
  induction d with
  | nil => simp [dictSet, dictGet]
  | cons hd tl ih =>
    obtain ⟨k2, v2⟩ := hd
    by_cases h : k2 = k
    · simp [dictSet, dictGet, h]
    · simp [dictSet, dictGet, h, ih]

theorem dictGet_dictSet_other (d : PyDict) (k k2 : String) (v : JVal) (h : k ≠ k2) :
    dictGet (dictSet d k v) k2 = dictGet d k2 := by
  induction d with
  | nil => simp [dictSet, dictGet, h]
  | cons hd tl ih =>
    obtain ⟨k3, v3⟩ := hd
    by_cases h3 : k3 = k
    · subst h3
      have hne : ¬ (k3 = k2) := h
      simp [dictSet, dictGet, hne]
    · simp [dictSet, dictGet, h3, ih]

theorem dictGet_dictUpdate_notMem (src : PyDict) (d : PyDict) (k : String)
    (h : k ∉ src.map Prod.fst) :
    dictGet (dictUpdate d src) k = dictGet d k := by
  induction src generalizing d with
  | nil => rfl
  | cons hd tl ih =>
    obtain ⟨k2, v2⟩ := hd
    simp only [List.map_cons, List.mem_cons, not_or] at h
    have hstep : dictUpdate d ((k2, v2) :: tl) = dictUpdate (dictSet d k2 v2) tl := rfl
    rw [hstep, ih _ h.2, dictGet_dictSet_other _ _ _ _ (fun he => h.1 he.symm)]

/-! ### Claims -/

/-- A model response whose JSON payload carries a system-owned key. -/
def statusClobberResponse : String := "\x7b\"status\": \"Non\"\x7d"

/-- The session record after the Analyser handler merges that response
into a fresh record with URL input `http://ex`. -/
def clobberedFormData : PyDict :=
  [("date", JVal.str "2026-01-01"), ("ville", JVal.str ""), ("quartier", JVal.str ""),
   ("prix", JVal.num 0 0), ("surface", JVal.num 0 0),
   ("type_vendeur", JVal.str "Agence"), ("email", JVal.str ""), ("telephone", JVal.str ""),
   ("url", JVal.str "http://ex"), ("status", JVal.str "Non"), ("commentaire", JVal.str ""),
   ("create_draft", JVal.bool false), ("message_draft", JVal.str "")]

/-- C1, counterexample: the Extraction Engine can return the mapping
`{"status": "Non"}` (nothing restricts the parsed keys), and merging it
through the Analyser handler overwrites the system-owned `status` field of
the record, so the claim as stated is false. -/
theorem C1_counterexample :
    analyze_result (ModelOutcome.ok statusClobberResponse)
      = some (JVal.obj [("status", JVal.str "Non")])
    ∧ analyser_handler (analyze_result (ModelOutcome.ok statusClobberResponse)) "http://ex"
        (initialFormData "2026-01-01") = some clobberedFormData
    ∧ dictGet (initialFormData "2026-01-01") "status" = some (JVal.str "A contacter")
    ∧ dictGet clobberedFormData "status" = some (JVal.str "Non")
    ∧ ("A contacter" : String) ≠ "Non" :=
  ⟨rfl, rfl, rfl, rfl, by decide⟩

/-- C1 (amended): for every mapping whose keys all lie in the
extraction-owned set, merging through the Analyser handler leaves
`status`, `commentaire`, `create_draft` and `message_draft` unchanged, and
`url` is set by the controller (to the URL input) whenever a merge
happens; an empty mapping leaves the record entirely unchanged. -/
theorem C1_merge_allowlist (fields : PyDict) (form : PyDict) (url_in : String)
    (h : ∀ k ∈ fields.map Prod.fst, k ∈ extractionOwned) :
    ∃ form2, analyser_handler (some (JVal.obj fields)) url_in form = some form2
      ∧ dictGet form2 "status" = dictGet form "status"
      ∧ dictGet form2 "commentaire" = dictGet form "commentaire"
      ∧ dictGet form2 "create_draft" = dictGet form "create_draft"
      ∧ dictGet form2 "message_draft" = dictGet form "message_draft"
      ∧ (fields ≠ [] → dictGet form2 "url" = some (JVal.str url_in))
      ∧ (fields = [] → form2 = form) := by
  by_cases hfe : fields = []
  · subst hfe
    exact ⟨form, rfl, rfl, rfl, rfl, rfl, fun hne => absurd rfl hne, fun _ => rfl⟩
  · have htr : pyTruthy (JVal.obj fields) = true := by
      cases fields with
      | nil => exact absurd rfl hfe
      | cons hd tl => rfl
    have hkeep : ∀ k2 : String, k2 ∉ extractionOwned → k2 ≠ "url" →
        dictGet (dictSet (dictUpdate form fields) "url" (JVal.str url_in)) k2
          = dictGet form k2 := by
      intro k2 hk2 hurl2
      rw [dictGet_dictSet_other _ _ _ _ (Ne.symm hurl2),
        dictGet_dictUpdate_notMem _ _ _ (fun hmem => hk2 (h _ hmem))]
    refine ⟨dictSet (dictUpdate form fields) "url" (JVal.str url_in), ?_,
      hkeep "status" (by decide) (by decide),
      hkeep "commentaire" (by decide) (by decide),
      hkeep "create_draft" (by decide) (by decide),
      hkeep "message_draft" (by decide) (by decide),
      fun _ => dictGet_dictSet_self _ _ _,
      fun h0 => absurd h0 hfe⟩
    simp [analyser_handler, htr]

/-- C1 (amended), witness at a concrete allowed mapping. -/
theorem C1_merge_allowlist_witness :
    ∃ form2, analyser_handler (some (JVal.obj [("ville", JVal.str "Paris")])) "http://ex"
        (initialFormData "2026-01-01") = some form2
      ∧ dictGet form2 "status" = dictGet (initialFormData "2026-01-01") "status"
      ∧ dictGet form2 "commentaire" = dictGet (initialFormData "2026-01-01") "commentaire"
      ∧ dictGet form2 "create_draft" = dictGet (initialFormData "2026-01-01") "create_draft"
      ∧ dictGet form2 "message_draft" = dictGet (initialFormData "2026-01-01") "message_draft"
      ∧ ([("ville", JVal.str "Paris")] ≠ ([] : PyDict) →
          dictGet form2 "url" = some (JVal.str "http://ex"))
      ∧ ([("ville", JVal.str "Paris")] = ([] : PyDict) → form2 = initialFormData "2026-01-01") :=
  C1_merge_allowlist [("ville", JVal.str "Paris")] (initialFormData "2026-01-01") "http://ex"
    (by decide)

/-- C2: when the cleaned response contains an opening and a closing brace,
the candidate string handed to `json.loads` is exactly the substring from
the first `'{'` to the last `'}'` inclusive, and the value returned by the
Extraction Engine is the parse of exactly that substring. -/
theorem C2_span_parse (text : String)
    (h1 : (pyFindChar (cleanupResponse text) '{').isSome)
    (h2 : (pyRfindChar (cleanupResponse text) '}').isSome) :
    jsonCandidate text = specJsonSpan (cleanupResponse text)
    ∧ analyze_result (ModelOutcome.ok text) = json_loads (specJsonSpan (cleanupResponse text)) := by
  obtain ⟨i, hi⟩ := Option.isSome_iff_exists.mp h1
  obtain ⟨j, hj⟩ := Option.isSome_iff_exists.mp h2
  have hc : jsonCandidate text = specJsonSpan (cleanupResponse text) := by
    simp [jsonCandidate, specJsonSpan, hi, hj]
  refine ⟨hc, ?_⟩
  have hr : analyze_result (ModelOutcome.ok text) = json_loads (jsonCandidate text) := by
    simp [analyze_result, hi]
  rw [hr, hc]

/-- A model response wrapping the JSON payload in a code fence and prose. -/
def fencedSample : String :=
  "Voici le résultat ```json\n\x7b\"ville\": \"Paris\", \"prix\": 300000\x7d\n``` merci."

/-- C2, witness at a fenced, prose-wrapped response. -/
theorem C2_span_parse_witness :
    jsonCandidate fencedSample = specJsonSpan (cleanupResponse fencedSample)
    ∧ analyze_result (ModelOutcome.ok fencedSample)
        = json_loads (specJsonSpan (cleanupResponse fencedSample)) :=
  C2_span_parse fencedSample (by decide) (by decide)

/-- C3: a raised model call returns `None`; a `json.loads` failure on the
candidate substring returns `None`; and when the extraction call returns
`None`, the Analyser handler leaves the session record unchanged. -/
theorem C3_errors_caught (text : String) (url_in : String) (form : PyDict) :
    analyze_result ModelOutcome.raised = none
    ∧ ((pyFindChar (cleanupResponse text) '{').isSome →
        json_loads (jsonCandidate text) = none →
        analyze_result (ModelOutcome.ok text) = none)
    ∧ analyser_handler none url_in form = some form := by
  refine ⟨rfl, ?_, rfl⟩
  intro h1 h2
  obtain ⟨i, hi⟩ := Option.isSome_iff_exists.mp h1
  simp [analyze_result, hi, h2]

/-- C3, witness: a raised call and a malformed candidate both yield `None`. -/
theorem C3_errors_caught_witness :
    analyze_result ModelOutcome.raised = none
    ∧ analyze_result (ModelOutcome.ok "\x7b") = none :=
  ⟨(C3_errors_caught "\x7b" "" []).1, (C3_errors_caught "\x7b" "" []).2.1 (by decide) rfl⟩

/-- C4: a cleaned response without any `'{'` yields the empty mapping, not
a failure. -/
theorem C4_no_open_brace (text : String)
    (h : pyFindChar (cleanupResponse text) '{' = none) :
    analyze_result (ModelOutcome.ok text) = some (JVal.obj [])
    ∧ analyze_result (ModelOutcome.ok text) ≠ none := by
  have he : analyze_result (ModelOutcome.ok text) = some (JVal.obj []) := by
    simp [analyze_result, h]
  exact ⟨he, by simp [he]⟩

/-- C4, witness at a brace-free response. -/
theorem C4_no_open_brace_witness :
    analyze_result (ModelOutcome.ok "pas de JSON ici") = some (JVal.obj [])
    ∧ analyze_result (ModelOutcome.ok "pas de JSON ici") ≠ none :=
  C4_no_open_brace "pas de JSON ici" (by decide)

/-- C5, counterexample: 304 is not a 2xx status, yet `raise_for_status`
raises only for 4xx/5xx, so the Content Fetcher returns the body rather
than `None`; the claim as stated (any non-2xx status is a failure) is
false. -/
theorem C5_counterexample :
    (304 < 200 ∨ 300 ≤ 304)
    ∧ fetch_url_content (FetchOutcome.ok 304 "cached") "http://x" = some "cached" :=
  ⟨Or.inr (by omega), rfl⟩

/-- C5 (amended): for every fetch that fails in the sense of the code — a
transport error, or an HTTP status in 400..599 (the ones
`raise_for_status` raises for) — the Content Fetcher returns `None`, and
the Extraction Engine builds the prompt with a bare-URL context block and
no HTML block, still invoking the model. -/
theorem C5_fetch_failure_fallback (outcome : FetchOutcome) (resp : ModelOutcome)
    (api_key raw_text url_input : String) (images : List PILImage)
    (hurl : url_input ≠ "")
    (hfail : outcome = FetchOutcome.netError
      ∨ ∃ s b, outcome = FetchOutcome.ok s b ∧ 400 ≤ s ∧ s < 600) :
    fetch_url_content outcome url_input = none
    ∧ (analyze_with_gemini outcome resp api_key raw_text url_input images).1
        = [PromptPart.text instructionBlock,
           PromptPart.text ("Source URL : " ++ url_input)]
          ++ (if raw_text ≠ "" then [PromptPart.text ("Source Texte : \n" ++ raw_text)] else [])
          ++ images.map PromptPart.image
    ∧ PromptPart.text ("Source URL : " ++ url_input)
        ∈ (analyze_with_gemini outcome resp api_key raw_text url_input images).1
    ∧ (analyze_with_gemini outcome resp api_key raw_text url_input images).2
        = analyze_result resp := by
  have hnone : fetch_url_content outcome url_input = none := by
    rcases hfail with h | ⟨s, b, h, h4, h6⟩
    · subst h; rfl
    · subst h
      simp only [fetch_url_content]
      rw [if_pos ⟨h4, h6⟩]
  have hp : (analyze_with_gemini outcome resp api_key raw_text url_input images).1
      = [PromptPart.text instructionBlock,
         PromptPart.text ("Source URL : " ++ url_input)]
        ++ (if raw_text ≠ "" then [PromptPart.text ("Source Texte : \n" ++ raw_text)] else [])
        ++ images.map PromptPart.image := by
    by_cases hrt : raw_text = ""
    · simp [analyze_with_gemini, hurl, hnone, hrt]
    · simp [analyze_with_gemini, hurl, hnone, hrt]
  refine ⟨hnone, hp, ?_, rfl⟩
  rw [hp]
  simp

/-- C5 (amended), witness at a 500 status. -/
theorem C5_fetch_failure_fallback_witness :
    fetch_url_content (FetchOutcome.ok 500 "oops") "http://x" = none
    ∧ (analyze_with_gemini (FetchOutcome.ok 500 "oops") ModelOutcome.raised
          "k" "" "http://x" []).1
        = [PromptPart.text instructionBlock,
           PromptPart.text ("Source URL : " ++ "http://x")]
          ++ (if ("" : String) ≠ "" then [PromptPart.text ("Source Texte : \n" ++ "")] else [])
          ++ List.map PromptPart.image []
    ∧ PromptPart.text ("Source URL : " ++ "http://x")
        ∈ (analyze_with_gemini (FetchOutcome.ok 500 "oops") ModelOutcome.raised
            "k" "" "http://x" []).1
    ∧ (analyze_with_gemini (FetchOutcome.ok 500 "oops") ModelOutcome.raised
          "k" "" "http://x" []).2
        = analyze_result ModelOutcome.raised :=
  C5_fetch_failure_fallback (FetchOutcome.ok 500 "oops") ModelOutcome.raised
    "k" "" "http://x" [] (by decide) (Or.inr ⟨500, "oops", rfl, by omega, by omega⟩)

/-- C6: the Webhook Submitter succeeds exactly for status 200 or 302; in
particular it fails for 404 and 500, and a transport exception yields
failure without propagating. -/
theorem C6_webhook_status (s : Nat) (url : String) (d : PyDict) :
    (send_to_webhook (PostOutcome.ok s) url d = true ↔ (s = 200 ∨ s = 302))
    ∧ send_to_webhook (PostOutcome.ok 404) url d = false
    ∧ send_to_webhook (PostOutcome.ok 500) url d = false
    ∧ send_to_webhook PostOutcome.exc url d = false := by
  refine ⟨?_, rfl, rfl, rfl⟩
  simp [send_to_webhook]

/-- C6, witness at status 302. -/
theorem C6_webhook_status_witness :
    send_to_webhook (PostOutcome.ok 302) "http://hook" [] = true :=
  (C6_webhook_status 302 "http://hook" []).1.mpr (Or.inr rfl)

/-- C7: the Draft Message Generator returns the fixed error string when
the model call raises, and on success returns the model reply text
verbatim (no JSON parsing). -/
theorem C7_draft_message (api_key quartier t : String) :
    generate_draft_message ModelOutcome.raised api_key quartier = "Erreur génération message."
    ∧ generate_draft_message (ModelOutcome.ok t) api_key quartier = t :=
  ⟨rfl, rfl⟩

/-- C8: the Image Normalizer keeps exactly the successfully decoded images
in input order (a `filterMap`), every kept image ends in RGB mode, an
already-RGB image is left unchanged, and the output is never longer than
the input. -/
theorem C8_image_batch (files : List (Option PILImage)) :
    process_images files = files.filterMap (fun f => f.map normalizeImage)
    ∧ (∀ img ∈ process_images files, img.mode = "RGB")
    ∧ (∀ img : PILImage, img.mode = "RGB" → normalizeImage img = img)
    ∧ (process_images files).length ≤ files.length := by
  have hfm : process_images files = files.filterMap (fun f => f.map normalizeImage) := by
    induction files with
    | nil => rfl
    | cons hd tl ih =>
      cases hd with
      | none => simp [process_images, ih]
      | some img => simp [process_images, ih]
  have hmode : ∀ img ∈ process_images files, img.mode = "RGB" := by
    clear hfm
    induction files with
    | nil => intro img hmem; simp [process_images] at hmem
    | cons hd tl ih =>
      intro img hmem
      cases hd with
      | none =>
        simp only [process_images] at hmem
        exact ih img hmem
      | some i0 =>
        simp only [process_images] at hmem
        rcases List.mem_cons.mp hmem with h | h
        · subst h
          by_cases hm : i0.mode = "RGB" <;> simp [normalizeImage, hm]
        · exact ih img h
  refine ⟨hfm, hmode, ?_, ?_⟩
  · intro img h
    simp [normalizeImage, h]
  · rw [hfm]
    exact List.length_filterMap_le _ _

/-- C8, witness: a batch with one failing decode, one grayscale image and
one RGB image. -/
theorem C8_image_batch_witness :
    process_images [some ⟨"L", 1⟩, none, some ⟨"RGB", 2⟩]
      = List.filterMap (fun f => f.map normalizeImage) [some ⟨"L", 1⟩, none, some ⟨"RGB", 2⟩]
    ∧ normalizeImage ⟨"RGB", 2⟩ = ⟨"RGB", 2⟩ :=
  ⟨(C8_image_batch [some ⟨"L", 1⟩, none, some ⟨"RGB", 2⟩]).1,
   (C8_image_batch [some ⟨"L", 1⟩, none, some ⟨"RGB", 2⟩]).2.2.1 ⟨"RGB", 2⟩ rfl⟩

/-- C9: a cleaned response with a `'{'` but no `'}'` gives end index 0, an
empty candidate substring, a `json.loads` failure on it, and therefore the
`None` failure indicator, not an empty mapping. -/
theorem C9_unclosed_brace (text : String) (i : Nat)
    (h1 : pyFindChar (cleanupResponse text) '{' = some i)
    (h2 : pyRfindChar (cleanupResponse text) '}' = none) :
    jsonCandidate text = [] ∧ json_loads [] = none
    ∧ analyze_result (ModelOutcome.ok text) = none := by
  have hc : jsonCandidate text = [] := by
    simp [jsonCandidate, h1, h2]
  have hr : analyze_result (ModelOutcome.ok text) = json_loads (jsonCandidate text) := by
    simp [analyze_result, h1]
  exact ⟨hc, rfl, by rw [hr, hc]; rfl⟩

/-- C9, witness at a response with an unmatched opening brace. -/
theorem C9_unclosed_brace_witness :
    jsonCandidate "\x7bmoitié" = [] ∧ json_loads [] = none
    ∧ analyze_result (ModelOutcome.ok "\x7bmoitié") = none :=
  C9_unclosed_brace "\x7bmoitié" 0 (by decide) (by decide)

/-- C10: an empty mapping is falsy, so the Analyser handler leaves the
record completely unchanged and does not set `url` — exactly as in the
`None` failure case. -/
theorem C10_empty_mapping_noop (url_in : String) (form : PyDict) :
    pyTruthy (JVal.obj []) = false
    ∧ analyser_handler (some (JVal.obj [])) url_in form = some form
    ∧ analyser_handler (some (JVal.obj [])) url_in form = analyser_handler none url_in form :=
  ⟨rfl, rfl, rfl⟩
